import Mathlib

/-
Verification of the nexmon stability watchdog of this repository.

Shallow embedding of:
  * `SafeChannelHopper` from `pwnaui_BACKUP_20260130_123704/python/nexmon_channel.py`
    (namespace `NexmonChannel`),
  * the v2 plugin `NexmonStability` from `pwnaui/plugins/nexmon_stability.py`
    (`_trigger_recovery`, `_do_recovery`, `on_epoch`; namespace `V2`),
  * the v3 integrated plugin `NexmonStability` from `plugins/custom/nexmon_stability.py`
    (`_tryTurningItOffAndOnAgain`, `_check_logs_for_errors`, `on_epoch`;
    namespaces `V3` and `Scanner`).

Modelling conventions:
  * wall-clock times and delays are rationals (the Python code uses floats, but every
    property of interest is purely order-theoretic, so exact rationals are faithful);
  * each external effect (subprocess call, bettercap `agent.run`, display update) is an
    input of the embedded function, given by an environment record that says how the
    call behaves (exit ok / non-zero exit / raised exception), exactly mirroring which
    Python statements can raise and which `try` block catches them;
  * logging calls and `time.sleep` never raise and do not change modelled state, so
    they are omitted;
  * fields that no claim mentions (hop history ring, dmesg error cache, chip metadata)
    are omitted from the state records.
-/

namespace NexmonChannel

/-- The 5 GHz channel table `SafeChannelHopper.CHANNELS_5GHZ`. -/
def CHANNELS_5GHZ : List Nat :=
  [36, 40, 44, 48, 52, 56, 60, 64, 100, 104, 108,
   112, 116, 120, 124, 128, 132, 136, 140, 149, 153, 157, 161, 165]

/-- The 2.4 GHz channel table `SafeChannelHopper.CHANNELS_2GHZ`. -/
def CHANNELS_2GHZ : List Nat := [1, 2, 3, 4, 5, 6, 7, 8, 9, 10, 11, 12, 13]

/-- `DEFAULT_HOP_DELAY = 0.15` (seconds). -/
def DEFAULT_HOP_DELAY : ℚ := 15 / 100

/-- `DEFAULT_5GHZ_DELAY = 0.25` (seconds). -/
def DEFAULT_5GHZ_DELAY : ℚ := 25 / 100

/-- `DEFAULT_BAND_SWITCH_DELAY = 0.3` (seconds). -/
def DEFAULT_BAND_SWITCH_DELAY : ℚ := 30 / 100

/-- `DEFAULT_RECOVERY_DELAY = 2.0` (seconds). -/
def DEFAULT_RECOVERY_DELAY : ℚ := 2

/-- Band test `channel in self.CHANNELS_5GHZ` used by `_get_hop_delay`. -/
def is5ghz (ch : Nat) : Bool := CHANNELS_5GHZ.contains ch

/-- State of a `SafeChannelHopper` instance: `current_channel`, `last_hop_time`,
`consecutive_errors`, `in_recovery`, and the `stats` dict counters. -/
structure HopperState where
  currentChannel : Option Nat
  lastHopTime : ℚ
  consecutiveErrors : Nat
  inRecovery : Bool
  totalHops : Nat
  successfulHops : Nat
  failedHops : Nat
  recoveries : Nat
  lastChannel : Option Nat
  deriving DecidableEq, Repr

/-- State produced by `__init__`: counters zero, `in_recovery = False`,
`current_channel` as left by `_detect_current_channel` (an external probe, hence a
parameter). -/
def initState (detected : Option Nat) : HopperState :=
  { currentChannel := detected
    lastHopTime := 0
    consecutiveErrors := 0
    inRecovery := false
    totalHops := 0
    successfulHops := 0
    failedHops := 0
    recoveries := 0
    lastChannel := none }

/-- `_get_hop_delay(target_channel)`: start from the configured `hop_delay`, raise to
`DEFAULT_5GHZ_DELAY` for a 5 GHz target, raise to `DEFAULT_BAND_SWITCH_DELAY` when the
current channel is known and the bands differ. -/
def getHopDelay (hopDelay : ℚ) (currentChannel : Option Nat) (target : Nat) : ℚ :=
  let d1 := if is5ghz target then max hopDelay DEFAULT_5GHZ_DELAY else hopDelay
  match currentChannel with
  | some c => if is5ghz c ≠ is5ghz target then max d1 DEFAULT_BAND_SWITCH_DELAY else d1
  | none => d1

/-- Behaviour of the `iw dev <iface> set channel` call inside `hop_to`: exit status 0,
non-zero exit status, `subprocess.TimeoutExpired`, or another raised exception.
All three non-`ok` cases reach `_handle_hop_error`. -/
inductive HopRes
  | ok
  | fail
  | timeout
  | exn
  deriving DecidableEq, Repr

/-- One `hop_to` call as seen by the state machine: how the OS command behaves, the
target channel, the wall-clock time of the call, and the `force` flag. -/
structure HopCall where
  res : HopRes
  channel : Nat
  now : ℚ
  force : Bool
  deriving DecidableEq, Repr

/-- `_handle_hop_error`: bump `consecutive_errors` and `failed_hops`; once
`consecutive_errors >= max_errors`, `_enter_recovery` runs to completion inside the
same call (it sets `in_recovery = True`, bumps `recoveries`, sleeps `recovery_delay`,
then resets `consecutive_errors = 0` and `in_recovery = False`), so its net effect on
the state at return is recorded here.  The `on_error` callback is invoked inside its
own bare `try`, so it cannot change this outcome. -/
def handleHopError (maxErrors : Nat) (s : HopperState) : HopperState :=
  let s1 := { s with consecutiveErrors := s.consecutiveErrors + 1
                     failedHops := s.failedHops + 1 }
  if maxErrors ≤ s1.consecutiveErrors then
    { s1 with recoveries := s1.recoveries + 1
              consecutiveErrors := 0
              inRecovery := false }
  else s1

/-- Condition of the fast-fail branch at the top of `hop_to`:
`if self.in_recovery and not force: return False`. -/
def fastFailTaken (s : HopperState) (force : Bool) : Bool :=
  s.inRecovery && !force

/-- `hop_to(channel, force)`.  Returns the boolean result and the next state.
`last_hop_time = time.time()` is executed only when the subprocess call returned
(exit 0 or non-zero); a raised `TimeoutExpired` / exception skips that assignment. -/
def hopTo (maxErrors : Nat) (c : HopCall) (s : HopperState) : Bool × HopperState :=
  if fastFailTaken s c.force then
    (false, s)
  else
    let s1 := { s with totalHops := s.totalHops + 1 }
    match c.res with
    | .ok =>
        (true, { s1 with lastHopTime := c.now
                         currentChannel := some c.channel
                         consecutiveErrors := 0
                         successfulHops := s1.successfulHops + 1
                         lastChannel := some c.channel })
    | .fail => (false, handleHopError maxErrors { s1 with lastHopTime := c.now })
    | .timeout => (false, handleHopError maxErrors s1)
    | .exn => (false, handleHopError maxErrors s1)

/-- Run a sequence of `hop_to` calls from a starting state. -/
def runHops (maxErrors : Nat) (calls : List HopCall) (s : HopperState) : HopperState :=
  match calls with
  | [] => s
  | c :: rest => runHops maxErrors rest (hopTo maxErrors c s).2

end NexmonChannel

namespace Scanner

/-- Whether the first list is an initial segment of the second. -/
def leadsWith : List Char → List Char → Bool
  | [], _ => true
  | _ :: _, [] => false
  | a :: as, b :: bs => a == b && leadsWith as bs

/-- Count of non-overlapping, leftmost occurrences of `pat` in the text, with explicit
fuel (the text length) so that the definition is structurally recursive and fully
evaluable.  For the non-empty literal patterns used below this is exactly
`len(re.findall(pat, text))`. -/
def countOccsAux (pat : List Char) : Nat → List Char → Nat
  | 0, _ => 0
  | _, [] => 0
  | fuel + 1, c :: rest =>
      if leadsWith pat (c :: rest) then
        1 + countOccsAux pat fuel (List.drop (pat.length - 1) rest)
      else
        countOccsAux pat fuel rest

/-- Number of non-overlapping occurrences of `pat` in `text`. -/
def countOccs (pat text : List Char) : Nat :=
  countOccsAux pat text.length text

/-- `self.pattern1`: iface validation failed (matched against the kernel journal). -/
def pat1 : List Char :=
  "ieee80211 phy0: brcmf_cfg80211_add_iface: iface validation failed: err=-95".data

/-- `self.pattern2`: wifi error while hopping (matched against the general journal). -/
def pat2 : List Char := "wifi error while hopping to channel".data

/-- `self.pattern3`: firmware halted or crashed (general journal). -/
def pat3 : List Char := "Firmware has halted or crashed".data

/-- `self.pattern4`: wlan0mon missing (pwnagotchi log). -/
def pat4 : List Char := "error 400: could not find interface wlan0mon".data

/-- `self.pattern5`: bettercap concurrent map fault (pwnagotchi log). -/
def pat5 : List Char := "fatal error: concurrent map iteration and map write".data

/-- `self.pattern6`: runtime panic (pwnagotchi log). -/
def pat6 : List Char := "panic: runtime error".data

/-- `self.pattern7`: allmulti -110 timeout (pwnagotchi log). -/
def pat7 : List Char :=
  "ieee80211 phy0: _brcmf_set_multicast_list: Setting allmulti failed, -110".data

/-- The seven rules of `_check_logs_for_errors`, in the priority order of its
`if`/`elif` chain. -/
inductive LogRule
  | ifaceValidation
  | hopError
  | firmwareCrash
  | ifaceMissing
  | mapFault
  | runtimePanic
  | allmulti
  deriving DecidableEq, Repr, Fintype

/-- Position of a rule in the `if`/`elif` chain (0 = checked first). -/
def ruleIdx : LogRule → Nat
  | .ifaceValidation => 0
  | .hopError => 1
  | .firmwareCrash => 2
  | .ifaceMissing => 3
  | .mapFault => 4
  | .runtimePanic => 5
  | .allmulti => 6

/-- Required occurrence count of each rule (`>= 5` for the channel-hop rule, `>= 3`
for the missing-interface rule, `>= 1` for the rest). -/
def minOcc : LogRule → Nat
  | .ifaceValidation => 1
  | .hopError => 5
  | .firmwareCrash => 1
  | .ifaceMissing => 3
  | .mapFault => 1
  | .runtimePanic => 1
  | .allmulti => 1

/-- Occurrence count of a rule's pattern in the text of the log source the code reads
it from: `k` = kernel journal tail, `o` = general journal tail, `p` = pwnagotchi log
tail. -/
def ruleCount (r : LogRule) (k o p : List Char) : Nat :=
  match r with
  | .ifaceValidation => countOccs pat1 k
  | .hopError => countOccs pat2 o
  | .firmwareCrash => countOccs pat3 o
  | .ifaceMissing => countOccs pat4 p
  | .mapFault => countOccs pat5 p
  | .runtimePanic => countOccs pat6 p
  | .allmulti => countOccs pat7 p

/-- The `if`/`elif` chain of `_check_logs_for_errors`, as a pure classifier over the
three supplied log texts: the first rule whose count reaches its minimum wins, and
text matching nothing yields `none` (the method then does nothing). -/
def classify (k o p : List Char) : Option LogRule :=
  if 1 ≤ countOccs pat1 k then some .ifaceValidation
  else if 5 ≤ countOccs pat2 o then some .hopError
  else if 1 ≤ countOccs pat3 o then some .firmwareCrash
  else if 3 ≤ countOccs pat4 p then some .ifaceMissing
  else if 1 ≤ countOccs pat5 p then some .mapFault
  else if 1 ≤ countOccs pat6 p then some .runtimePanic
  else if 1 ≤ countOccs pat7 p then some .allmulti
  else none

/-- The same chain abstracted over the boolean outcome of each threshold test; used to
state and decide the first-match property once for all texts. -/
def classifyB (b : LogRule → Bool) : Option LogRule :=
  if b .ifaceValidation then some .ifaceValidation
  else if b .hopError then some .hopError
  else if b .firmwareCrash then some .firmwareCrash
  else if b .ifaceMissing then some .ifaceMissing
  else if b .mapFault then some .mapFault
  else if b .runtimePanic then some .runtimePanic
  else if b .allmulti then some .allmulti
  else none

/-- A concrete journal tail holding exactly five channel-hop error lines (used to
exercise the scanner on a real threshold-5 rule). -/
def hopErrorText5 : List Char := pat2 ++ pat2 ++ pat2 ++ pat2 ++ pat2

end Scanner

namespace V2

/-- Behaviour of one `subprocess.run(...)` call in the v2 plugin: exit status 0,
non-zero exit status, or a raised exception (`TimeoutExpired` or other). -/
inductive CmdRes
  | ok
  | fail
  | exn
  deriving DecidableEq, Repr

/-- Outcome of the admission guard `_trigger_recovery`.  The code expresses these as
plain early returns; the labels follow the spec's vocabulary for the three branches:
`started` = flag set, timestamp pushed, worker thread spawned; `abortedConcurrent` =
the `if self._recovering: return` branch; `abortedRateLimit` = the
`len(self.recovery_times) >= max_recoveries: return` branch. -/
inductive TriggerOutcome
  | started
  | abortedConcurrent
  | abortedRateLimit
  deriving DecidableEq, Repr

/-- Claim-relevant mutable state of a v2 `NexmonStability` instance: `_recovering`,
`recovery_times` and the `stats` / blind-epoch counters. -/
structure PluginState where
  recovering : Bool
  recoveryTimes : List ℚ
  totalRecoveries : Nat
  successfulRecoveries : Nat
  failedRecoveries : Nat
  blindEpochs : Nat
  totalBlindEpochs : Nat
  deriving DecidableEq, Repr

/-- State produced by `__init__`: flag down, no recorded attempts, all counters 0. -/
def initPlugin : PluginState :=
  { recovering := false
    recoveryTimes := []
    totalRecoveries := 0
    successfulRecoveries := 0
    failedRecoveries := 0
    blindEpochs := 0
    totalBlindEpochs := 0 }

/-- The pruning step of `_trigger_recovery`:
`self.recovery_times = [t for t in self.recovery_times if current_time - t < window]`. -/
def pruneTimes (window now : ℚ) (ts : List ℚ) : List ℚ :=
  ts.filter (fun t => now - t < window)

/-- `_trigger_recovery(reason)` under its lock.  Note the order of the source: the
`_recovering` check comes first and returns before any pruning, so a concurrent
rejection leaves `recovery_times` untouched; the rate-limit rejection prunes but
records nothing; admission sets the flag, appends the timestamp, and bumps
`stats['total_recoveries']` (the repair itself then runs as `_do_recovery`). -/
def triggerRecovery (window : ℚ) (maxRecoveries : Nat) (now : ℚ)
    (s : PluginState) : TriggerOutcome × PluginState :=
  if s.recovering then
    (.abortedConcurrent, s)
  else
    let pruned := pruneTimes window now s.recoveryTimes
    if maxRecoveries ≤ pruned.length then
      (.abortedRateLimit, { s with recoveryTimes := pruned })
    else
      (.started,
        { s with recovering := true
                 recoveryTimes := pruned ++ [now]
                 totalRecoveries := s.totalRecoveries + 1 })

/-- The repair steps of `_do_recovery`, in source order.  `waitIface` is the bounded
`for i in range(10)` poll for `wlan0` to reappear. -/
inductive RecStep
  | ifaceDown
  | unload
  | reload
  | waitIface
  | monDel
  | monAdd
  | ifaceUp
  | verify
  deriving DecidableEq, Repr

/-- Environment for one `_do_recovery` run: the behaviour of each subprocess call.
`waitRes i` is the result of the `i`-th iteration of the reappearance poll;
`verifyMonitor` is whether the final `iw dev wlan0mon info` output contains
`monitor`. -/
structure RecoveryEnv where
  ifaceDown : CmdRes
  unload : CmdRes
  reload : CmdRes
  waitRes : Nat → CmdRes
  monDel : CmdRes
  monAdd : CmdRes
  ifaceUp : CmdRes
  verify : CmdRes
  verifyMonitor : Bool

/-- The reappearance poll `for i in range(10)`: breaks on exit status 0, continues on
non-zero, and propagates a raised exception (the returned boolean).  The loop result
is otherwise unused by the code. -/
def waitLoopRaises (res : Nat → CmdRes) : Nat → Nat → Bool
  | _, 0 => false
  | i, k + 1 =>
      match res i with
      | .exn => true
      | .ok => false
      | .fail => waitLoopRaises res (i + 1) k

/-- Result of a `_do_recovery` run: the state at return and the list of repair steps
that were executed (used to express that an abort skips the remaining steps). -/
structure RecoveryResult where
  state : PluginState
  steps : List RecStep
  deriving DecidableEq, Repr

/-- `_do_recovery(reason)`.  The whole body is a `try`: any raised exception reaches
`except` (`stats['failed_recoveries'] += 1`) and then `finally`, which clears
`_recovering` under the lock on every exit path.  Non-zero exit statuses are never
inspected except at the final verification, so they abort nothing.  On verified
success the blind counter resets and `successful_recoveries` bumps; otherwise
`failed_recoveries` bumps.  (`_restart_bettercap` runs inside its own `try` and
changes no modelled state.) -/
def doRecovery (env : RecoveryEnv) (s : PluginState) : RecoveryResult :=
  let exnExit : List RecStep → RecoveryResult := fun steps =>
    { state := { s with failedRecoveries := s.failedRecoveries + 1, recovering := false }
      steps := steps }
  if env.ifaceDown = .exn then exnExit [.ifaceDown]
  else if env.unload = .exn then exnExit [.ifaceDown, .unload]
  else if env.reload = .exn then exnExit [.ifaceDown, .unload, .reload]
  else if waitLoopRaises env.waitRes 0 10 then
    exnExit [.ifaceDown, .unload, .reload, .waitIface]
  else if env.monDel = .exn then
    exnExit [.ifaceDown, .unload, .reload, .waitIface, .monDel]
  else if env.monAdd = .exn then
    exnExit [.ifaceDown, .unload, .reload, .waitIface, .monDel, .monAdd]
  else if env.ifaceUp = .exn then
    exnExit [.ifaceDown, .unload, .reload, .waitIface, .monDel, .monAdd, .ifaceUp]
  else if env.verify = .exn then
    exnExit [.ifaceDown, .unload, .reload, .waitIface, .monDel, .monAdd, .ifaceUp, .verify]
  else
    let allSteps : List RecStep :=
      [.ifaceDown, .unload, .reload, .waitIface, .monDel, .monAdd, .ifaceUp, .verify]
    if env.verify = .ok ∧ env.verifyMonitor then
      { state := { s with successfulRecoveries := s.successfulRecoveries + 1
                          blindEpochs := 0
                          recovering := false }
        steps := allSteps }
    else
      { state := { s with failedRecoveries := s.failedRecoveries + 1
                          recovering := false }
        steps := allSteps }

/-- A trigger followed by the spawned `_do_recovery` worker, sequentialised: the
rejected outcomes return at once, the admitted one runs the repair. -/
def triggerAndRun (window : ℚ) (maxRecoveries : Nat) (now : ℚ) (env : RecoveryEnv)
    (s : PluginState) : PluginState :=
  let r := triggerRecovery window maxRecoveries now s
  match r.1 with
  | .started => (doRecovery env r.2).state
  | _ => r.2

/-- The blind-epoch tracking of the v2 `on_epoch` hook: a zero-observation cycle bumps
both blind counters and, at the configured threshold, calls `_trigger_recovery`
(whose outcome is returned); a cycle with observations resets `blind_epochs`
unconditionally.  The unrelated diagnostics bookkeeping of the hook is omitted. -/
def onEpoch (window : ℚ) (maxRecoveries maxBlind : Nat) (now : ℚ) (currentAps : Nat)
    (s : PluginState) : PluginState × Option TriggerOutcome :=
  if currentAps = 0 then
    let s1 := { s with blindEpochs := s.blindEpochs + 1
                       totalBlindEpochs := s.totalBlindEpochs + 1 }
    if maxBlind ≤ s1.blindEpochs then
      let r := triggerRecovery window maxRecoveries now s1
      (r.2, some r.1)
    else (s1, none)
  else
    ({ s with blindEpochs := 0 }, none)

/-- A concrete environment in which every subprocess call returns exit status 0 and
the final verification sees `monitor` in the output. -/
def envVerified : RecoveryEnv :=
  { ifaceDown := .ok
    unload := .ok
    reload := .ok
    waitRes := fun _ => .ok
    monDel := .ok
    monAdd := .ok
    ifaceUp := .ok
    verify := .ok
    verifyMonitor := true }

/-- A concrete environment in which `modprobe -r brcmfmac` returns a non-zero exit
status and everything else succeeds (including the final verification). -/
def envUnloadNonZero : RecoveryEnv :=
  { envVerified with unload := .fail }

/-- A concrete environment in which `modprobe -r brcmfmac` raises
(`subprocess.TimeoutExpired`). -/
def envUnloadExn : RecoveryEnv :=
  { envVerified with unload := .exn }

end V2

namespace V3

/-- Behaviour of one bettercap `agent.run(...)` call in the v3 plugin: it returned a
dict with `success` truthy, returned with `success` falsy, or raised. -/
inductive RunRes
  | ok
  | notOk
  | exn
  deriving DecidableEq, Repr

/-- How a call to `_tryTurningItOffAndOnAgain` leaves the function: a normal return,
or an exception propagating to the caller. -/
inductive ExitKind
  | normal
  | raised
  deriving DecidableEq, Repr

/-- Claim-relevant mutable state of a v3 `NexmonStability` instance:
`isReloadingMon`, `LASTTRY`, the `stats` counters and the blind-epoch counters. -/
structure PluginState where
  isReloadingMon : Bool
  lasttry : ℚ
  totalRecoveries : Nat
  successfulRecoveries : Nat
  failedRecoveries : Nat
  blindEpochs : Nat
  totalBlindEpochs : Nat
  deriving DecidableEq, Repr

/-- State produced by `__init__`: `isReloadingMon = False`, `LASTTRY = 0`, counters 0. -/
def initPlugin : PluginState :=
  { isReloadingMon := false
    lasttry := 0
    totalRecoveries := 0
    successfulRecoveries := 0
    failedRecoveries := 0
    blindEpochs := 0
    totalBlindEpochs := 0 }

/-- The externally visible steps of `_tryTurningItOffAndOnAgain`, in source order. -/
inductive RecStep
  | reconOff
  | monstop
  | unload
  | depmod
  | reload
  | monstart
  | setIface
  | reconOn
  deriving DecidableEq, Repr

/-- Environment for one `_tryTurningItOffAndOnAgain` run.  Each `…Raises` field says
whether the corresponding external call raises.  `display1Raises` covers the
`agent.view()` / `display.update(...)` pair executed right after the flag is set and
before any `try` block; `display2Raises` is the display update inside the step-3
`try`; `display3Raises` the one inside the step-7 `try`.  `reconOff`, `depmod` and
`setIface` run inside their own `try` blocks whose handlers only log, so for them
only execution (not outcome) is modelled. -/
structure TryEnv where
  display1Raises : Bool
  unloadRaises : Bool
  display2Raises : Bool
  reloadRaises : Bool
  monstartRaises : Bool
  reconOn : RunRes
  display3Raises : Bool
  deriving DecidableEq, Repr

/-- Result of a `_tryTurningItOffAndOnAgain` call: how it exited, the state it left
behind, and the repair steps that were started. -/
structure TryResult where
  exit : ExitKind
  state : PluginState
  steps : List RecStep
  deriving DecidableEq, Repr

/-- `_tryTurningItOffAndOnAgain(agent)` (with the plugin enabled), at wall-clock time
`now`.  Faithful control flow:
duplicate guard `if self.isReloadingMon and (time.time() - self.LASTTRY) < 180`;
then flag set, `LASTTRY = now`, `total_recoveries += 1`;
then the unguarded display update (an exception here propagates with the flag still
set); steps 1-2 in their own `try` blocks; the step-3 `try` covering unload, the
second display update, `depmod` (inner `try`), reload, `monstart` and
`set wifi.interface` (inner `try`), whose handler bumps `failed_recoveries`, clears
the flag and returns; then the flag is cleared, and the step-7 `try` runs
`wifi.clear; wifi.recon on`: on success `successful_recoveries += 1`,
`blind_epochs = 0` and — unless the third display update raises into the step-7
handler first — `LASTTRY = now + 120`; on a falsy result `failed_recoveries += 1` and
`LASTTRY = now - 300`; on an exception `failed_recoveries += 1`. -/
def tryTurningItOffAndOnAgain (env : TryEnv) (now : ℚ) (s : PluginState) : TryResult :=
  if s.isReloadingMon = true ∧ now - s.lasttry < 180 then
    { exit := .normal, state := s, steps := [] }
  else
    let s1 := { s with isReloadingMon := true
                       lasttry := now
                       totalRecoveries := s.totalRecoveries + 1 }
    if env.display1Raises then
      { exit := .raised, state := s1, steps := [] }
    else
      let stepFail : List RecStep → TryResult := fun steps =>
        { exit := .normal
          state := { s1 with failedRecoveries := s1.failedRecoveries + 1
                             isReloadingMon := false }
          steps := steps }
      if env.unloadRaises then stepFail [.reconOff, .monstop, .unload]
      else if env.display2Raises then stepFail [.reconOff, .monstop, .unload]
      else if env.reloadRaises then
        stepFail [.reconOff, .monstop, .unload, .depmod, .reload]
      else if env.monstartRaises then
        stepFail [.reconOff, .monstop, .unload, .depmod, .reload, .monstart]
      else
        let s2 := { s1 with isReloadingMon := false }
        let allSteps : List RecStep :=
          [.reconOff, .monstop, .unload, .depmod, .reload, .monstart, .setIface, .reconOn]
        match env.reconOn with
        | .ok =>
            let s3 := { s2 with successfulRecoveries := s2.successfulRecoveries + 1
                                blindEpochs := 0 }
            if env.display3Raises then
              { exit := .normal
                state := { s3 with failedRecoveries := s3.failedRecoveries + 1 }
                steps := allSteps }
            else
              { exit := .normal, state := { s3 with lasttry := now + 120 }, steps := allSteps }
        | .notOk =>
            { exit := .normal
              state := { s2 with failedRecoveries := s2.failedRecoveries + 1
                                 lasttry := now - 300 }
              steps := allSteps }
        | .exn =>
            { exit := .normal
              state := { s2 with failedRecoveries := s2.failedRecoveries + 1 }
              steps := allSteps }

/-- The v3 `on_epoch` hook (plugin enabled): blind-epoch tracking followed by the
journalctl gate `if time.time() - self.LASTTRY > 180: self._check_logs_for_errors(...)`.
Returns the state after the blind-tracking part (including a possibly triggered
recovery) and whether the log scan runs this epoch; if the triggered recovery raises,
the hook propagates and the gate is never reached. -/
def onEpoch (env : TryEnv) (maxBlind : Nat) (now : ℚ) (currentAps : Nat)
    (s : PluginState) : PluginState × Bool :=
  if currentAps = 0 then
    let s1 := { s with blindEpochs := s.blindEpochs + 1
                       totalBlindEpochs := s.totalBlindEpochs + 1 }
    if maxBlind ≤ s1.blindEpochs then
      let r := tryTurningItOffAndOnAgain env now s1
      match r.exit with
      | .raised => (r.state, false)
      | .normal => (r.state, decide (180 < now - r.state.lasttry))
    else (s1, decide (180 < now - s1.lasttry))
  else
    let s1 := { s with blindEpochs := 0 }
    (s1, decide (180 < now - s1.lasttry))

/-- A concrete environment in which every external call of the repair sequence
succeeds (no raises, `wifi.recon on` reports success). -/
def envOk : TryEnv :=
  { display1Raises := false
    unloadRaises := false
    display2Raises := false
    reloadRaises := false
    monstartRaises := false
    reconOn := .ok
    display3Raises := false }

/-- A concrete environment in which the initial, unguarded display update raises. -/
def envDisplay1Raises : TryEnv :=
  { envOk with display1Raises := true }

/-- A concrete environment in which `modprobe -r brcmfmac` (via `check_output`)
raises, i.e. the driver-unload step fails. -/
def envUnloadFails : TryEnv :=
  { envOk with unloadRaises := true }

end V3

/-
Helper lemmas.  These are shared infrastructure for the claim theorems below and
are proved directly from the definitions above.
-/

namespace NexmonChannel

/-- One `hop_to` call preserves `total = successful + failed`. -/
theorem hopTo_total_eq (maxE : Nat) (c : HopCall) (s : HopperState)
    (h : s.totalHops = s.successfulHops + s.failedHops) :
    (hopTo maxE c s).2.totalHops =
      (hopTo maxE c s).2.successfulHops + (hopTo maxE c s).2.failedHops := by
  rcases c with ⟨res, ch, now, force⟩
  cases res <;> cases hf : fastFailTaken s force <;>
      simp [hopTo, handleHopError, hf] <;> (try split_ifs) <;> simp_all <;> omega

/-- A whole sequence of `hop_to` calls preserves `total = successful + failed`. -/
theorem runHops_total_eq (maxE : Nat) (calls : List HopCall) :
    ∀ s : HopperState, s.totalHops = s.successfulHops + s.failedHops →
      (runHops maxE calls s).totalHops =
        (runHops maxE calls s).successfulHops + (runHops maxE calls s).failedHops := by
  induction calls with
  | nil => intro s h; exact h
  | cons c rest ih =>
      intro s h
      exact ih _ (hopTo_total_eq maxE c s h)

/-- One `hop_to` call preserves the between-calls state `in_recovery = False` and
`consecutive_errors < max_errors` (for a positive error threshold): the recovery
pause triggered by the threshold runs to completion inside the call. -/
theorem hopTo_pause_inv (maxE : Nat) (hm : 1 ≤ maxE) (c : HopCall) (s : HopperState)
    (h1 : s.inRecovery = false) (h2 : s.consecutiveErrors < maxE) :
    (hopTo maxE c s).2.inRecovery = false ∧ (hopTo maxE c s).2.consecutiveErrors < maxE := by
  rcases c with ⟨res, ch, now, force⟩
  cases res <;> cases hf : fastFailTaken s force <;>
      simp [hopTo, handleHopError, hf] <;> (try split_ifs) <;> simp_all <;> omega

/-- The between-calls pause invariant holds along every call sequence. -/
theorem runHops_pause_inv (maxE : Nat) (hm : 1 ≤ maxE) (calls : List HopCall) :
    ∀ s : HopperState, s.inRecovery = false → s.consecutiveErrors < maxE →
      (runHops maxE calls s).inRecovery = false ∧
        (runHops maxE calls s).consecutiveErrors < maxE := by
  induction calls with
  | nil => intro s h1 h2; exact ⟨h1, h2⟩
  | cons c rest ih =>
      intro s h1 h2
      have h := hopTo_pause_inv maxE hm c s h1 h2
      exact ih _ h.1 h.2

/-- Unfolding `_get_hop_delay` when the current channel is known. -/
theorem getHopDelay_some (d : ℚ) (c t : Nat) :
    getHopDelay d (some c) t =
      (if is5ghz c ≠ is5ghz t
        then max (if is5ghz t = true then max d DEFAULT_5GHZ_DELAY else d)
          DEFAULT_BAND_SWITCH_DELAY
        else (if is5ghz t = true then max d DEFAULT_5GHZ_DELAY else d)) := rfl

/-- Unfolding `_get_hop_delay` when the current channel is unknown. -/
theorem getHopDelay_none (d : ℚ) (t : Nat) :
    getHopDelay d none t = (if is5ghz t = true then max d DEFAULT_5GHZ_DELAY else d) := rfl

end NexmonChannel

namespace Scanner

set_option maxRecDepth 4096 in
/-- First-match semantics of the abstract `if`/`elif` chain, settled once for all 128
outcomes of the seven threshold tests. -/
theorem classifyB_spec : ∀ b : LogRule → Bool,
    (∀ r, classifyB b = some r ↔ (b r = true ∧ ∀ q, ruleIdx q < ruleIdx r → b q = false)) ∧
    (classifyB b = none ↔ ∀ r, b r = false) := by decide

/-- `classify` is the abstract chain applied to the real threshold tests. -/
theorem classify_eq (k o p : List Char) :
    classify k o p = classifyB (fun r => decide (minOcc r ≤ ruleCount r k o p)) := by
  simp only [classify, classifyB, minOcc, ruleCount, decide_eq_true_eq]

end Scanner

namespace V2

/-- `_do_recovery` clears `_recovering` on every exit path (the `finally` block). -/
theorem doRecovery_clears_flag (env : RecoveryEnv) (s : PluginState) :
    (doRecovery env s).state.recovering = false := by
  simp only [doRecovery]
  split_ifs <;> rfl

/-- `_trigger_recovery` never touches the blind-epoch counter. -/
theorem triggerRecovery_blind (w : ℚ) (m : Nat) (now : ℚ) (s : PluginState) :
    (triggerRecovery w m now s).2.blindEpochs = s.blindEpochs := by
  simp only [triggerRecovery]
  split_ifs <;> rfl

/-- A verified-success `_do_recovery` run resets the blind counter and bumps exactly
the success counter. -/
theorem doRecovery_success (env : RecoveryEnv) (s : PluginState)
    (h1 : env.ifaceDown ≠ .exn) (h2 : env.unload ≠ .exn) (h3 : env.reload ≠ .exn)
    (h4 : waitLoopRaises env.waitRes 0 10 = false) (h5 : env.monDel ≠ .exn)
    (h6 : env.monAdd ≠ .exn) (h7 : env.ifaceUp ≠ .exn)
    (h8 : env.verify = .ok) (h9 : env.verifyMonitor = true) :
    (doRecovery env s).state.blindEpochs = 0 ∧
    (doRecovery env s).state.successfulRecoveries = s.successfulRecoveries + 1 ∧
    (doRecovery env s).state.failedRecoveries = s.failedRecoveries := by
  simp only [doRecovery]
  rw [if_neg h1, if_neg h2, if_neg h3, if_neg (by simp [h4]), if_neg h5, if_neg h6,
    if_neg h7, if_neg (by simp [h8]), if_pos ⟨h8, h9⟩]
  exact ⟨rfl, rfl, rfl⟩

/-- A raised exception at the driver-unload step of `_do_recovery` aborts the rest of
the sequence: failure counter bumps, flag clears, no later step runs. -/
theorem doRecovery_unload_exn (env : RecoveryEnv) (s : PluginState)
    (h1 : env.ifaceDown ≠ .exn) (h2 : env.unload = .exn) :
    (doRecovery env s).state.failedRecoveries = s.failedRecoveries + 1 ∧
    (doRecovery env s).state.recovering = false ∧
    (doRecovery env s).steps = [.ifaceDown, .unload] := by
  simp only [doRecovery]
  rw [if_neg h1, if_pos h2]
  exact ⟨rfl, rfl, rfl⟩

/-- A cycle with observations zeroes `blind_epochs` in `on_epoch`. -/
theorem onEpoch_seen_resets (w : ℚ) (m mb : Nat) (now : ℚ) (n : Nat) (s : PluginState) :
    ((onEpoch w m mb now (n + 1) s).1).blindEpochs = 0 := by
  simp [onEpoch]

/-- Starting from a reset counter, one blind cycle counts exactly 1, whether or not
the cycle also triggers a recovery request. -/
theorem onEpoch_blind_after_reset (w : ℚ) (m mb : Nat) (now : ℚ) (s : PluginState)
    (h : s.blindEpochs = 0) :
    ((onEpoch w m mb now 0 s).1).blindEpochs = 1 := by
  simp only [onEpoch, if_pos rfl]
  split_ifs <;> simp [triggerRecovery_blind, h]

end V2

namespace V3

/-- The duplicate guard of `_tryTurningItOffAndOnAgain`: flag set and less than 180 s
since `LASTTRY` means the call returns at once with nothing changed. -/
theorem tryTurning_guard (env : TryEnv) (now : ℚ) (s : PluginState)
    (h1 : s.isReloadingMon = true) (h2 : now - s.lasttry < 180) :
    tryTurningItOffAndOnAgain env now s = ⟨.normal, s, []⟩ := by
  simp only [tryTurningItOffAndOnAgain]
  rw [if_pos ⟨h1, h2⟩]

/-- With the flag down at entry, the call is always admitted: the attempt counter
bumps no matter how the repair then goes. -/
theorem tryTurning_admitted_total (env : TryEnv) (now : ℚ) (s : PluginState)
    (h : s.isReloadingMon = false) :
    (tryTurningItOffAndOnAgain env now s).state.totalRecoveries = s.totalRecoveries + 1 := by
  simp only [tryTurningItOffAndOnAgain]
  rw [if_neg (by simp [h])]
  split_ifs <;>
    first
      | rfl
      | (cases env.reconOn <;> rfl)

/-- Whenever the duplicate guard does not fire — flag down, *or* 180 s or more since
`LASTTRY` even with the flag still up — the call is admitted: the attempt counter
bumps no matter how the repair then goes. -/
theorem tryTurning_guard_missed_total (env : TryEnv) (now : ℚ) (s : PluginState)
    (h : ¬ (s.isReloadingMon = true ∧ now - s.lasttry < 180)) :
    (tryTurningItOffAndOnAgain env now s).state.totalRecoveries = s.totalRecoveries + 1 := by
  simp only [tryTurningItOffAndOnAgain]
  rw [if_neg h]
  split_ifs <;>
    first
      | rfl
      | (cases env.reconOn <;> rfl)

/-- A guard-missing request with an all-success environment runs a full repair
sequence: the attempt counter bumps and the driver-unload step executes. -/
theorem tryTurning_guard_missed_runs (env : TryEnv) (now : ℚ) (s : PluginState)
    (h : ¬ (s.isReloadingMon = true ∧ now - s.lasttry < 180))
    (e1 : env.display1Raises = false) (e2 : env.unloadRaises = false)
    (e3 : env.display2Raises = false) (e4 : env.reloadRaises = false)
    (e5 : env.monstartRaises = false) (e6 : env.reconOn = .ok)
    (e7 : env.display3Raises = false) :
    (tryTurningItOffAndOnAgain env now s).state.totalRecoveries = s.totalRecoveries + 1 ∧
    RecStep.unload ∈ (tryTurningItOffAndOnAgain env now s).steps := by
  simp only [tryTurningItOffAndOnAgain]
  rw [if_neg h, if_neg (by simp [e1]), if_neg (by simp [e2]), if_neg (by simp [e3]),
    if_neg (by simp [e4]), if_neg (by simp [e5]), e6]
  simp only
  rw [if_neg (by simp [e7])]
  exact ⟨rfl, by simp⟩

/-- Every normal return of an admitted `_tryTurningItOffAndOnAgain` call leaves the
flag down; only the raising exit can keep it up. -/
theorem tryTurning_normal_clears (env : TryEnv) (now : ℚ) (s : PluginState)
    (h : s.isReloadingMon = false)
    (hex : (tryTurningItOffAndOnAgain env now s).exit = .normal) :
    (tryTurningItOffAndOnAgain env now s).state.isReloadingMon = false := by
  simp only [tryTurningItOffAndOnAgain] at *
  rw [if_neg (by simp [h])] at hex ⊢
  split_ifs at hex ⊢ <;>
    first
      | rfl
      | (cases env.reconOn <;> rfl)
      | simp_all

/-- The fully successful repair path: success counter bumps, blind counter resets,
flag clears, and `LASTTRY` moves 120 s into the future. -/
theorem tryTurning_success (env : TryEnv) (now : ℚ) (s : PluginState)
    (h : s.isReloadingMon = false)
    (e1 : env.display1Raises = false) (e2 : env.unloadRaises = false)
    (e3 : env.display2Raises = false) (e4 : env.reloadRaises = false)
    (e5 : env.monstartRaises = false) (e6 : env.reconOn = .ok)
    (e7 : env.display3Raises = false) :
    (tryTurningItOffAndOnAgain env now s).state.lasttry = now + 120 ∧
    (tryTurningItOffAndOnAgain env now s).state.successfulRecoveries
      = s.successfulRecoveries + 1 ∧
    (tryTurningItOffAndOnAgain env now s).state.blindEpochs = 0 ∧
    (tryTurningItOffAndOnAgain env now s).state.isReloadingMon = false ∧
    (tryTurningItOffAndOnAgain env now s).exit = .normal := by
  simp only [tryTurningItOffAndOnAgain]
  rw [if_neg (by simp [h]), if_neg (by simp [e1]), if_neg (by simp [e2]),
    if_neg (by simp [e3]), if_neg (by simp [e4]), if_neg (by simp [e5]), e6]
  simp only
  rw [if_neg (by simp [e7])]
  exact ⟨rfl, rfl, rfl, rfl, rfl⟩

/-- A failing driver-unload step: the handler bumps the failure counter, clears the
flag and returns; `depmod`, the reload, `monstart` and the recon restart never run. -/
theorem tryTurning_unload_fails (env : TryEnv) (now : ℚ) (s : PluginState)
    (h : s.isReloadingMon = false)
    (e1 : env.display1Raises = false) (e2 : env.unloadRaises = true) :
    (tryTurningItOffAndOnAgain env now s).exit = .normal ∧
    (tryTurningItOffAndOnAgain env now s).state.failedRecoveries
      = s.failedRecoveries + 1 ∧
    (tryTurningItOffAndOnAgain env now s).state.successfulRecoveries
      = s.successfulRecoveries ∧
    (tryTurningItOffAndOnAgain env now s).state.isReloadingMon = false ∧
    (tryTurningItOffAndOnAgain env now s).steps = [.reconOff, .monstop, .unload] := by
  simp only [tryTurningItOffAndOnAgain]
  rw [if_neg (by simp [h]), if_neg (by simp [e1]), if_pos e2]
  exact ⟨rfl, rfl, rfl, rfl, rfl⟩

/-- While `LASTTRY` sits 120 s in the future, the journalctl gate of `on_epoch` stays
closed for every cycle up to 300 s after the successful recovery. -/
theorem onEpoch_gate_closed (env : TryEnv) (mb : Nat) (t now : ℚ) (n : Nat)
    (s : PluginState) (hl : s.lasttry = t + 120) (hnow : now ≤ t + 300) :
    (onEpoch env mb now (n + 1) s).2 = false := by
  simp only [onEpoch]
  rw [if_neg (by omega : ¬ n + 1 = 0)]
  simp only [decide_eq_false_iff_not, not_lt, hl]
  linarith

end V3

/-
Claim theorems.  One theorem per claim of the specification, each preceded by its
claim id; corrected claims additionally have a counterexample theorem refuting the
original wording at a concrete input.
-/

/-- C1 counterexample: in `_tryTurningItOffAndOnAgain` the display update executed
right after `isReloadingMon = True` sits outside every `try` block, so an exception
raised there propagates out of the function with the recovery-in-progress flag still
set, although the flag was false before the trigger.  This refutes "cleared on every
exit path ... and uncaught exception". -/
theorem c1_counterexample :
    V3.initPlugin.isReloadingMon = false ∧
    (V3.tryTurningItOffAndOnAgain V3.envDisplay1Raises 1000 V3.initPlugin).exit
      = .raised ∧
    (V3.tryTurningItOffAndOnAgain V3.envDisplay1Raises 1000 V3.initPlugin).state.isReloadingMon
      = true :=
  ⟨rfl, rfl, rfl⟩

/-- C1 (amended): the recovery-in-progress flag is cleared on every exit path of the
v2 `_do_recovery` (success, step failure and raised exception alike, thanks to its
`finally`), and a v2 trigger call from a flag-down state always ends flag-down; in
the v3 `_tryTurningItOffAndOnAgain` the flag is cleared on every *normal* return of
an admitted call, but not on the exceptional exit through the unguarded initial
display update. -/
theorem c1_flag_cleared_amended :
    (∀ (env : V2.RecoveryEnv) (s : V2.PluginState),
      (V2.doRecovery env s).state.recovering = false) ∧
    (∀ (w : ℚ) (m : Nat) (now : ℚ) (env : V2.RecoveryEnv) (s : V2.PluginState),
      s.recovering = false →
      (V2.triggerAndRun w m now env s).recovering = false) ∧
    (∀ (env : V3.TryEnv) (now : ℚ) (s : V3.PluginState),
      s.isReloadingMon = false →
      (V3.tryTurningItOffAndOnAgain env now s).exit = .normal →
      (V3.tryTurningItOffAndOnAgain env now s).state.isReloadingMon = false) := by
  refine ⟨fun env s => V2.doRecovery_clears_flag env s, ?_, ?_⟩
  · intro w m now env s h
    simp only [V2.triggerAndRun]
    rcases hout : (V2.triggerRecovery w m now s).1 with _ | _ | _
    · exact V2.doRecovery_clears_flag env _
    · simp only [V2.triggerRecovery] at *
      split_ifs at hout ⊢ <;> simp_all
    · simp only [V2.triggerRecovery] at *
      split_ifs at hout ⊢ <;> simp_all
  · exact fun env now s h hex => V3.tryTurning_normal_clears env now s h hex

/-- C1 witness: the amended theorem applied to the all-success environments at
concrete inputs. -/
theorem c1_flag_cleared_amended_witness :
    (V2.doRecovery V2.envVerified V2.initPlugin).state.recovering = false ∧
    (V2.triggerAndRun 3600 5 0 V2.envVerified V2.initPlugin).recovering = false ∧
    (V3.tryTurningItOffAndOnAgain V3.envOk 0 V3.initPlugin).state.isReloadingMon
      = false :=
  ⟨c1_flag_cleared_amended.1 V2.envVerified V2.initPlugin,
   c1_flag_cleared_amended.2.1 3600 5 0 V2.envVerified V2.initPlugin rfl,
   c1_flag_cleared_amended.2.2 V3.envOk 0 V3.initPlugin rfl rfl⟩

/-- C2 counterexample: the duplicate guard of `_tryTurningItOffAndOnAgain` also
requires that less than 180 s have passed since `LASTTRY`, so a request made while a
recovery is in progress (`isReloadingMon` true) but 180 s or more after the sequence
set `LASTTRY` to its own start time is *admitted*: here, with the flag up and
`LASTTRY = 0`, a request at time 200 bumps the attempt counter and runs a second
repair sequence through its driver-unload step.  This refutes "for every recovery
request made while a recovery is already in progress ... the request is rejected ...
no second repair sequence starts" for that cited function. -/
theorem c2_counterexample :
    ({ V3.initPlugin with isReloadingMon := true } : V3.PluginState).isReloadingMon
      = true ∧
    ¬ ((200 : ℚ) -
        ({ V3.initPlugin with isReloadingMon := true } : V3.PluginState).lasttry < 180) ∧
    (V3.tryTurningItOffAndOnAgain V3.envOk 200
        { V3.initPlugin with isReloadingMon := true }).state.totalRecoveries
      = ({ V3.initPlugin with isReloadingMon := true } : V3.PluginState).totalRecoveries
          + 1 ∧
    V3.RecStep.unload ∈ (V3.tryTurningItOffAndOnAgain V3.envOk 200
        { V3.initPlugin with isReloadingMon := true }).steps := by
  have hlt : ¬ ((200 : ℚ) -
      ({ V3.initPlugin with isReloadingMon := true } : V3.PluginState).lasttry < 180) := by
    simp only [V3.initPlugin]
    norm_num
  have h := V3.tryTurning_guard_missed_runs V3.envOk 200
    { V3.initPlugin with isReloadingMon := true } (fun hc => hlt hc.2)
    rfl rfl rfl rfl rfl rfl rfl
  exact ⟨rfl, hlt, h.1, h.2⟩

/-- C2 (amended): in the v2 `_trigger_recovery` (whose check-then-set runs under the
plugin lock), every request made while `_recovering` is true is rejected with the
state returned untouched, an admitted trigger leaves the flag up, and a second
trigger right after an admission is rejected — two sequential manual triggers yield
exactly one repair execution.  In the v3 `_tryTurningItOffAndOnAgain` the duplicate
guard is two-sided: it rejects, with nothing changed, only while the flag is up
*and* less than 180 s have passed since `LASTTRY`; once 180 s have passed the
request is admitted even though the flag is still up, so a long-running sequence can
be overlapped — and that guard runs under no lock, so even its rejection is only a
sequential best-effort dedup, not an atomic admission decision. -/
theorem c2_concurrent_amended :
    (∀ (w : ℚ) (m : Nat) (now : ℚ) (s : V2.PluginState), s.recovering = true →
      V2.triggerRecovery w m now s = (.abortedConcurrent, s)) ∧
    (∀ (w : ℚ) (m : Nat) (now : ℚ) (s : V2.PluginState),
      (V2.triggerRecovery w m now s).1 = .started →
      (V2.triggerRecovery w m now s).2.recovering = true) ∧
    (∀ (w : ℚ) (m : Nat) (now now2 : ℚ) (s : V2.PluginState),
      (V2.triggerRecovery w m now s).1 = .started →
      V2.triggerRecovery w m now2 (V2.triggerRecovery w m now s).2 =
        (.abortedConcurrent, (V2.triggerRecovery w m now s).2)) ∧
    (∀ (env : V3.TryEnv) (now : ℚ) (s : V3.PluginState),
      s.isReloadingMon = true → now - s.lasttry < 180 →
      V3.tryTurningItOffAndOnAgain env now s = ⟨.normal, s, []⟩) ∧
    (∀ (env : V3.TryEnv) (now : ℚ) (s : V3.PluginState),
      s.isReloadingMon = true → ¬ (now - s.lasttry < 180) →
      (V3.tryTurningItOffAndOnAgain env now s).state.totalRecoveries
        = s.totalRecoveries + 1) := by
  have h1 : ∀ (w : ℚ) (m : Nat) (now : ℚ) (s : V2.PluginState), s.recovering = true →
      V2.triggerRecovery w m now s = (.abortedConcurrent, s) := by
    intro w m now s h
    simp only [V2.triggerRecovery]
    rw [if_pos h]
  have h2 : ∀ (w : ℚ) (m : Nat) (now : ℚ) (s : V2.PluginState),
      (V2.triggerRecovery w m now s).1 = .started →
      (V2.triggerRecovery w m now s).2.recovering = true := by
    intro w m now s h
    simp only [V2.triggerRecovery] at *
    split_ifs at h ⊢ <;> simp_all
  exact ⟨h1, h2, fun w m now now2 s h => h1 w m now2 _ (h2 w m now s h),
    fun env now s ha hb => V3.tryTurning_guard env now s ha hb,
    fun env now s _ hb =>
      V3.tryTurning_guard_missed_total env now s (fun hc => hb hc.2)⟩

/-- C2 witness: a concrete rejected trigger on a recovering state, a concrete
admitted trigger followed by a rejected one, a concrete v3 duplicate-guard rejection
at 10 s, and a concrete v3 admission with the flag still up at 200 s. -/
theorem c2_concurrent_amended_witness :
    (V2.triggerRecovery 3600 5 0 { V2.initPlugin with recovering := true }
      = (.abortedConcurrent, { V2.initPlugin with recovering := true })) ∧
    (V2.triggerRecovery 3600 5 1 (V2.triggerRecovery 3600 5 0 V2.initPlugin).2 =
      (.abortedConcurrent, (V2.triggerRecovery 3600 5 0 V2.initPlugin).2)) ∧
    (V3.tryTurningItOffAndOnAgain V3.envOk 10
        { V3.initPlugin with isReloadingMon := true }
      = ⟨.normal, { V3.initPlugin with isReloadingMon := true }, []⟩) ∧
    ((V3.tryTurningItOffAndOnAgain V3.envOk 200
        { V3.initPlugin with isReloadingMon := true }).state.totalRecoveries
      = ({ V3.initPlugin with isReloadingMon := true } : V3.PluginState).totalRecoveries
          + 1) :=
  ⟨c2_concurrent_amended.1 3600 5 0 { V2.initPlugin with recovering := true } rfl,
   c2_concurrent_amended.2.2.1 3600 5 0 1 V2.initPlugin rfl,
   c2_concurrent_amended.2.2.2.1 V3.envOk 10 { V3.initPlugin with isReloadingMon := true }
     rfl (by norm_num [V3.initPlugin]),
   c2_concurrent_amended.2.2.2.2 V3.envOk 200 { V3.initPlugin with isReloadingMon := true }
     rfl (by norm_num [V3.initPlugin])⟩

/-- C3 counterexample: the concurrency check of `_trigger_recovery` returns before
the pruning statement, so an admission check performed while a recovery is running
leaves entries older than the window in `recovery_times` (here: entry 0 survives the
check at time 11 with window 10).  This refutes "pruned on every admission check, so
after each check it never contains entries older than the window". -/
theorem c3_counterexample :
    (V2.triggerRecovery 10 5 0 V2.initPlugin).1 = .started ∧
    (V2.triggerRecovery 10 5 11 (V2.triggerRecovery 10 5 0 V2.initPlugin).2).1
      = .abortedConcurrent ∧
    (V2.triggerRecovery 10 5 11 (V2.triggerRecovery 10 5 0 V2.initPlugin).2).2.recoveryTimes
      = [0] ∧
    ((10 : ℚ) ≤ 11 - 0) :=
  ⟨rfl, rfl, rfl, by norm_num⟩

/-- C3 (amended): with `N` recorded attempts all inside the trailing window, a
further request is rejected with the rate-limit outcome and starts nothing; once the
window has elapsed from the oldest recorded attempt, a request is admitted; and on
every admission check that passes the concurrency guard the timestamp list is pruned,
so afterwards (for a positive window) it contains no entry older than the window. -/
theorem c3_rate_limit_amended :
    (∀ (w : ℚ) (N : Nat) (now : ℚ) (s : V2.PluginState),
      s.recovering = false →
      N ≤ s.recoveryTimes.length →
      (∀ t ∈ s.recoveryTimes, now - t < w) →
      (V2.triggerRecovery w N now s).1 = .abortedRateLimit ∧
      (V2.triggerRecovery w N now s).2.recovering = false ∧
      (V2.triggerRecovery w N now s).2.totalRecoveries = s.totalRecoveries ∧
      (V2.triggerRecovery w N now s).2.recoveryTimes = s.recoveryTimes) ∧
    (∀ (w : ℚ) (N : Nat) (now : ℚ) (s : V2.PluginState) (t0 : ℚ),
      s.recovering = false →
      s.recoveryTimes.length ≤ N →
      t0 ∈ s.recoveryTimes →
      w ≤ now - t0 →
      (V2.triggerRecovery w N now s).1 = .started) ∧
    (∀ (w : ℚ) (N : Nat) (now : ℚ) (s : V2.PluginState),
      s.recovering = false → 0 < w →
      ∀ t ∈ (V2.triggerRecovery w N now s).2.recoveryTimes, now - t < w) := by
  refine ⟨?_, ?_, ?_⟩
  · intro w N now s hrec hlen hwin
    have hall : V2.pruneTimes w now s.recoveryTimes = s.recoveryTimes := by
      apply List.filter_eq_self.mpr
      intro t ht
      exact decide_eq_true (hwin t ht)
    have hge : N ≤ (V2.pruneTimes w now s.recoveryTimes).length := by
      rw [hall]; exact hlen
    simp only [V2.triggerRecovery]
    rw [if_neg (by simp [hrec]), if_pos hge, hall]
    exact ⟨rfl, hrec, rfl, rfl⟩
  · intro w N now s t0 hrec hlen ht0 hw
    have hdrop : (V2.pruneTimes w now s.recoveryTimes).length < s.recoveryTimes.length := by
      apply List.length_filter_lt_length_iff_exists.mpr
      refine ⟨t0, ht0, ?_⟩
      simp only [decide_eq_true_eq]
      exact not_lt.mpr hw
    have hlt : (V2.pruneTimes w now s.recoveryTimes).length < N := lt_of_lt_of_le hdrop hlen
    simp only [V2.triggerRecovery]
    rw [if_neg (by simp [hrec]), if_neg (not_le.mpr hlt)]
  · intro w N now s hrec hw t ht
    simp only [V2.triggerRecovery] at ht
    rw [if_neg (by simp [hrec])] at ht
    by_cases hN : N ≤ (V2.pruneTimes w now s.recoveryTimes).length
    · rw [if_pos hN] at ht
      simp only at ht
      have := (List.mem_filter.mp ht).2
      simpa using this
    · rw [if_neg hN] at ht
      simp only at ht
      rcases List.mem_append.mp ht with hmem | hmem
      · have := (List.mem_filter.mp hmem).2
        simpa using this
      · have : t = now := by simpa using hmem
        rw [this]
        simpa using hw

/-- C3 witness: the amended theorem at concrete inputs — a full window of zero
capacity rejects, one stale attempt at time 0 admits a request at time 10 with
window 10, and the pruning bound holds after an admission from an empty list. -/
theorem c3_rate_limit_amended_witness :
    ((V2.triggerRecovery 10 0 0 V2.initPlugin).1 = .abortedRateLimit ∧
      (V2.triggerRecovery 10 0 0 V2.initPlugin).2.recovering = false ∧
      (V2.triggerRecovery 10 0 0 V2.initPlugin).2.totalRecoveries
        = V2.initPlugin.totalRecoveries ∧
      (V2.triggerRecovery 10 0 0 V2.initPlugin).2.recoveryTimes
        = V2.initPlugin.recoveryTimes) ∧
    (V2.triggerRecovery 10 1 10
        { V2.initPlugin with recoveryTimes := [0] }).1 = .started ∧
    (∀ t ∈ (V2.triggerRecovery 1 5 0 V2.initPlugin).2.recoveryTimes, 0 - t < 1) :=
  ⟨c3_rate_limit_amended.1 10 0 0 V2.initPlugin rfl (by decide) (by simp [V2.initPlugin]),
   c3_rate_limit_amended.2.1 10 1 10 { V2.initPlugin with recoveryTimes := [0] } 0
     rfl (by decide) (by simp) (by simp),
   c3_rate_limit_amended.2.2 1 5 0 V2.initPlugin rfl zero_lt_one⟩

/-- C4 counterexample: after a fully successful recovery at time 1000 the state has
`isReloadingMon = false` and `LASTTRY = 1120`, yet a new request at time 1010 — well
inside the 120 s cool-down — is admitted and runs a full second repair sequence (the
attempt counter bumps and the driver-unload step executes).  This refutes "every new
recovery request ... is pre-emptively rejected" during the cool-down. -/
theorem c4_counterexample :
    (V3.tryTurningItOffAndOnAgain V3.envOk 1000 V3.initPlugin).state.isReloadingMon
      = false ∧
    (V3.tryTurningItOffAndOnAgain V3.envOk 1000 V3.initPlugin).state.lasttry
      = 1000 + 120 ∧
    ((1010 : ℚ) < 1000 + 120) ∧
    (V3.tryTurningItOffAndOnAgain V3.envOk 1010
        ((V3.tryTurningItOffAndOnAgain V3.envOk 1000 V3.initPlugin).state)).state.totalRecoveries
      = (V3.tryTurningItOffAndOnAgain V3.envOk 1000 V3.initPlugin).state.totalRecoveries
          + 1 ∧
    V3.RecStep.unload ∈ (V3.tryTurningItOffAndOnAgain V3.envOk 1010
        ((V3.tryTurningItOffAndOnAgain V3.envOk 1000 V3.initPlugin).state)).steps := by
  refine ⟨rfl, rfl, by norm_num, rfl, ?_⟩
  simp [V3.tryTurningItOffAndOnAgain, V3.envOk, V3.initPlugin]

/-- C4 (amended): a successful recovery at time `now` sets `LASTTRY = now + 120`;
the only pre-emptive effect of this cool-down is that the journalctl scan of
`on_epoch` (gated by `now - LASTTRY > 180`) stays disabled until 300 s after the
success, so no log-pattern action can fire in that window — blind-epoch and manual
requests are *not* rejected during the cool-down, because the duplicate guard also
requires `isReloadingMon` to be true. -/
theorem c4_cooldown_amended :
    (∀ (env : V3.TryEnv) (now : ℚ) (s : V3.PluginState),
      s.isReloadingMon = false →
      env.display1Raises = false → env.unloadRaises = false →
      env.display2Raises = false → env.reloadRaises = false →
      env.monstartRaises = false → env.reconOn = .ok → env.display3Raises = false →
      (V3.tryTurningItOffAndOnAgain env now s).state.lasttry = now + 120) ∧
    (∀ (env : V3.TryEnv) (mb : Nat) (t now : ℚ) (n : Nat) (s : V3.PluginState),
      s.lasttry = t + 120 → now ≤ t + 300 →
      (V3.onEpoch env mb now (n + 1) s).2 = false) ∧
    (∀ (env : V3.TryEnv) (now : ℚ) (s : V3.PluginState),
      s.isReloadingMon = false →
      (V3.tryTurningItOffAndOnAgain env now s).state.totalRecoveries
        = s.totalRecoveries + 1) :=
  ⟨fun env now s h e1 e2 e3 e4 e5 e6 e7 =>
      (V3.tryTurning_success env now s h e1 e2 e3 e4 e5 e6 e7).1,
   fun env mb t now n s hl hnow => V3.onEpoch_gate_closed env mb t now n s hl hnow,
   fun env now s h => V3.tryTurning_admitted_total env now s h⟩

/-- C4 witness: the amended theorem at concrete inputs — a success at time 0 sets
`LASTTRY = 120`, the log gate stays closed at time 300, and a trigger on a flag-down
state is admitted. -/
theorem c4_cooldown_amended_witness :
    (V3.tryTurningItOffAndOnAgain V3.envOk 0 V3.initPlugin).state.lasttry = 0 + 120 ∧
    (V3.onEpoch V3.envOk 10 300 (0 + 1)
        { V3.initPlugin with lasttry := 0 + 120 }).2 = false ∧
    (V3.tryTurningItOffAndOnAgain V3.envOk 1010 V3.initPlugin).state.totalRecoveries
      = V3.initPlugin.totalRecoveries + 1 :=
  ⟨c4_cooldown_amended.1 V3.envOk 0 V3.initPlugin rfl rfl rfl rfl rfl rfl rfl rfl,
   c4_cooldown_amended.2.1 V3.envOk 10 0 300 0 { V3.initPlugin with lasttry := 0 + 120 }
     rfl (by simp),
   c4_cooldown_amended.2.2 V3.envOk 1010 V3.initPlugin rfl⟩

/-- C5 counterexample: in the v2 `_do_recovery` the driver-unload step is run with
`subprocess.run` and its exit status is never inspected, so a failing unload (non-zero
exit) aborts nothing: here the sequence carries on, executes the reload, verifies, and
ends as a *success* with the failure counter untouched.  This refutes "the sequence
aborts immediately ... the failed-recoveries counter increments by exactly 1" for
that cited function. -/
theorem c5_counterexample :
    (V2.doRecovery V2.envUnloadNonZero V2.initPlugin).state.failedRecoveries = 0 ∧
    (V2.doRecovery V2.envUnloadNonZero V2.initPlugin).state.successfulRecoveries = 1 ∧
    V2.RecStep.reload ∈ (V2.doRecovery V2.envUnloadNonZero V2.initPlugin).steps := by
  refine ⟨rfl, rfl, ?_⟩
  simp [V2.doRecovery, V2.envUnloadNonZero, V2.envVerified, V2.waitLoopRaises]

/-- C5 (amended): in the v3 `_tryTurningItOffAndOnAgain` (whose unload uses
`check_output` and therefore raises on a non-zero exit), a failing driver unload
aborts the sequence at once — failure counter +1, flag cleared, none of `depmod`,
reload, `monstart`, `set wifi.interface` or the recon restart runs; in the v2
`_do_recovery` only a *raised* unload (timeout) aborts the remaining steps in the
same way, while a non-zero exit status is ignored and the sequence continues. -/
theorem c5_unload_abort_amended :
    (∀ (env : V3.TryEnv) (now : ℚ) (s : V3.PluginState),
      s.isReloadingMon = false →
      env.display1Raises = false → env.unloadRaises = true →
      (V3.tryTurningItOffAndOnAgain env now s).exit = .normal ∧
      (V3.tryTurningItOffAndOnAgain env now s).state.failedRecoveries
        = s.failedRecoveries + 1 ∧
      (V3.tryTurningItOffAndOnAgain env now s).state.successfulRecoveries
        = s.successfulRecoveries ∧
      (V3.tryTurningItOffAndOnAgain env now s).state.isReloadingMon = false ∧
      (V3.tryTurningItOffAndOnAgain env now s).steps
        = [.reconOff, .monstop, .unload]) ∧
    (∀ (env : V2.RecoveryEnv) (s : V2.PluginState),
      env.ifaceDown ≠ .exn → env.unload = .exn →
      (V2.doRecovery env s).state.failedRecoveries = s.failedRecoveries + 1 ∧
      (V2.doRecovery env s).state.recovering = false ∧
      (V2.doRecovery env s).steps = [.ifaceDown, .unload]) :=
  ⟨fun env now s h e1 e2 => V3.tryTurning_unload_fails env now s h e1 e2,
   fun env s h1 h2 => V2.doRecovery_unload_exn env s h1 h2⟩

/-- C5 witness: the amended theorem at the concrete unload-failure environments. -/
theorem c5_unload_abort_amended_witness :
    ((V3.tryTurningItOffAndOnAgain V3.envUnloadFails 0 V3.initPlugin).exit = .normal ∧
      (V3.tryTurningItOffAndOnAgain V3.envUnloadFails 0 V3.initPlugin).state.failedRecoveries
        = V3.initPlugin.failedRecoveries + 1 ∧
      (V3.tryTurningItOffAndOnAgain V3.envUnloadFails 0 V3.initPlugin).state.successfulRecoveries
        = V3.initPlugin.successfulRecoveries ∧
      (V3.tryTurningItOffAndOnAgain V3.envUnloadFails 0 V3.initPlugin).state.isReloadingMon
        = false ∧
      (V3.tryTurningItOffAndOnAgain V3.envUnloadFails 0 V3.initPlugin).steps
        = [.reconOff, .monstop, .unload]) ∧
    ((V2.doRecovery V2.envUnloadExn V2.initPlugin).state.failedRecoveries
        = V2.initPlugin.failedRecoveries + 1 ∧
      (V2.doRecovery V2.envUnloadExn V2.initPlugin).state.recovering = false ∧
      (V2.doRecovery V2.envUnloadExn V2.initPlugin).steps = [.ifaceDown, .unload]) :=
  ⟨c5_unload_abort_amended.1 V3.envUnloadFails 0 V3.initPlugin rfl rfl rfl,
   c5_unload_abort_amended.2 V2.envUnloadExn V2.initPlugin (by decide) rfl⟩

/-- C6: the scanner chain of `_check_logs_for_errors` acts on exactly the first rule
(in its fixed priority order) whose non-overlapping occurrence count in its log
source reaches that rule's minimum (5 for channel-hop errors, 3 for the missing
interface, 1 for the rest): `classify` returns rule `r` precisely when `r` is at
threshold and every higher-priority rule is below its own, and returns nothing —
hence triggers no action — precisely when every rule is below threshold. -/
theorem c6_scanner_first_match : ∀ k o p : List Char,
    (∀ r, Scanner.classify k o p = some r ↔
      (Scanner.minOcc r ≤ Scanner.ruleCount r k o p ∧
        ∀ q, Scanner.ruleIdx q < Scanner.ruleIdx r →
          Scanner.ruleCount q k o p < Scanner.minOcc q)) ∧
    (Scanner.classify k o p = none ↔
      ∀ r, Scanner.ruleCount r k o p < Scanner.minOcc r) := by
  intro k o p
  have h := Scanner.classifyB_spec
    (fun r => decide (Scanner.minOcc r ≤ Scanner.ruleCount r k o p))
  rw [Scanner.classify_eq k o p]
  constructor
  · intro r
    rw [h.1 r]
    simp [Nat.not_le, Nat.lt_iff_add_one_le]
  · rw [h.2]
    simp [Nat.not_le]

set_option maxRecDepth 8192 in
/-- C6 witness: a journal tail made of exactly five channel-hop error lines (and no
kernel-journal match) classifies as the channel-hop rule, and empty texts classify
as nothing. -/
theorem c6_scanner_first_match_witness :
    Scanner.classify [] Scanner.hopErrorText5 [] = some .hopError ∧
    Scanner.classify [] [] [] = none :=
  ⟨((c6_scanner_first_match [] Scanner.hopErrorText5 []).1 .hopError).mpr
      ⟨by decide, by decide⟩,
   (c6_scanner_first_match [] [] []).2.mpr (by decide)⟩

/-- C7: the hop statistics always satisfy `total_hops = successful_hops +
failed_hops`: the equality is preserved by every single `hop_to` call (whatever the
command result, force flag or pause state), and therefore holds after every sequence
of calls from a freshly constructed hopper. -/
theorem c7_stats_invariant :
    (∀ (maxE : Nat) (c : NexmonChannel.HopCall) (s : NexmonChannel.HopperState),
      s.totalHops = s.successfulHops + s.failedHops →
      (NexmonChannel.hopTo maxE c s).2.totalHops =
        (NexmonChannel.hopTo maxE c s).2.successfulHops +
          (NexmonChannel.hopTo maxE c s).2.failedHops) ∧
    (∀ (maxE : Nat) (detected : Option Nat) (calls : List NexmonChannel.HopCall),
      (NexmonChannel.runHops maxE calls (NexmonChannel.initState detected)).totalHops =
        (NexmonChannel.runHops maxE calls (NexmonChannel.initState detected)).successfulHops +
          (NexmonChannel.runHops maxE calls (NexmonChannel.initState detected)).failedHops) :=
  ⟨fun maxE c s h => NexmonChannel.hopTo_total_eq maxE c s h,
   fun maxE det calls => NexmonChannel.runHops_total_eq maxE calls _ rfl⟩

/-- C7 witness: the invariant evaluated after a concrete mixed sequence (a non-zero
exit, a success, a timeout, a forced call). -/
theorem c7_stats_invariant_witness :
    (NexmonChannel.runHops 3
        [⟨.fail, 1, 0, false⟩, ⟨.ok, 6, 1, false⟩, ⟨.timeout, 36, 2, false⟩,
          ⟨.exn, 11, 3, true⟩]
        (NexmonChannel.initState none)).totalHops =
      (NexmonChannel.runHops 3
        [⟨.fail, 1, 0, false⟩, ⟨.ok, 6, 1, false⟩, ⟨.timeout, 36, 2, false⟩,
          ⟨.exn, 11, 3, true⟩]
        (NexmonChannel.initState none)).successfulHops +
      (NexmonChannel.runHops 3
        [⟨.fail, 1, 0, false⟩, ⟨.ok, 6, 1, false⟩, ⟨.timeout, 36, 2, false⟩,
          ⟨.exn, 11, 3, true⟩]
        (NexmonChannel.initState none)).failedHops :=
  c7_stats_invariant.2 3 none
    [⟨.fail, 1, 0, false⟩, ⟨.ok, 6, 1, false⟩, ⟨.timeout, 36, 2, false⟩,
      ⟨.exn, 11, 3, true⟩]

/-- C8: the dwell delay computed by `_get_hop_delay` is at least the band-switch
delay whenever the known current channel and the target are in different bands, at
least the 5 GHz delay whenever the target is a 5 GHz channel, and always at least
the configured base hop delay. -/
theorem c8_delay_bounds :
    (∀ (d : ℚ) (c t : Nat), NexmonChannel.is5ghz c ≠ NexmonChannel.is5ghz t →
      NexmonChannel.DEFAULT_BAND_SWITCH_DELAY ≤ NexmonChannel.getHopDelay d (some c) t) ∧
    (∀ (d : ℚ) (cur : Option Nat) (t : Nat), NexmonChannel.is5ghz t = true →
      NexmonChannel.DEFAULT_5GHZ_DELAY ≤ NexmonChannel.getHopDelay d cur t) ∧
    (∀ (d : ℚ) (cur : Option Nat) (t : Nat), d ≤ NexmonChannel.getHopDelay d cur t) := by
  have hsome : ∀ (d x : ℚ) (c t : Nat),
      x ≤ (if NexmonChannel.is5ghz t = true
            then max d NexmonChannel.DEFAULT_5GHZ_DELAY else d) →
      x ≤ NexmonChannel.getHopDelay d (some c) t := by
    intro d x c t hx
    rw [NexmonChannel.getHopDelay_some]
    by_cases hb : NexmonChannel.is5ghz c ≠ NexmonChannel.is5ghz t
    · rw [if_pos hb]
      exact le_max_of_le_left hx
    · rw [if_neg hb]
      exact hx
  have hbase : ∀ (d : ℚ) (t : Nat),
      d ≤ (if NexmonChannel.is5ghz t = true
            then max d NexmonChannel.DEFAULT_5GHZ_DELAY else d) := by
    intro d t
    split
    · exact le_max_left _ _
    · exact le_refl _
  refine ⟨?_, ?_, ?_⟩
  · intro d c t hne
    rw [NexmonChannel.getHopDelay_some, if_pos hne]
    exact le_max_right _ _
  · intro d cur t ht
    have h1 : NexmonChannel.DEFAULT_5GHZ_DELAY ≤
        (if NexmonChannel.is5ghz t = true
          then max d NexmonChannel.DEFAULT_5GHZ_DELAY else d) := by
      rw [if_pos ht]
      exact le_max_right _ _
    cases cur with
    | none => rw [NexmonChannel.getHopDelay_none]; exact h1
    | some c => exact hsome d _ c t h1
  · intro d cur t
    cases cur with
    | none => rw [NexmonChannel.getHopDelay_none]; exact hbase d t
    | some c => exact hsome d d c t (hbase d t)

/-- C8 witness: the three bounds at a concrete cross-band hop (channel 1 to channel
36) with the default base delay. -/
theorem c8_delay_bounds_witness :
    NexmonChannel.DEFAULT_BAND_SWITCH_DELAY
      ≤ NexmonChannel.getHopDelay NexmonChannel.DEFAULT_HOP_DELAY (some 1) 36 ∧
    NexmonChannel.DEFAULT_5GHZ_DELAY
      ≤ NexmonChannel.getHopDelay NexmonChannel.DEFAULT_HOP_DELAY (some 1) 36 ∧
    NexmonChannel.DEFAULT_HOP_DELAY
      ≤ NexmonChannel.getHopDelay NexmonChannel.DEFAULT_HOP_DELAY (some 1) 36 :=
  ⟨c8_delay_bounds.1 NexmonChannel.DEFAULT_HOP_DELAY 1 36 (by decide),
   c8_delay_bounds.2.1 NexmonChannel.DEFAULT_HOP_DELAY (some 1) 36 (by decide),
   c8_delay_bounds.2.2 NexmonChannel.DEFAULT_HOP_DELAY (some 1) 36⟩

/-- C9: every observation cycle with a nonzero count zeroes `blind_epochs`
regardless of the rest of the state; a verified-success `_do_recovery` run zeroes it
too; and composing a successful recovery (from any state, e.g. one at the trigger
threshold) with a following zero-observation cycle leaves the counter at exactly 1,
not the pre-reset value plus one. -/
theorem c9_blind_reset :
    (∀ (w : ℚ) (m mb : Nat) (now : ℚ) (n : Nat) (s : V2.PluginState),
      ((V2.onEpoch w m mb now (n + 1) s).1).blindEpochs = 0) ∧
    (∀ (env : V2.RecoveryEnv) (s : V2.PluginState),
      env.ifaceDown ≠ .exn → env.unload ≠ .exn → env.reload ≠ .exn →
      V2.waitLoopRaises env.waitRes 0 10 = false → env.monDel ≠ .exn →
      env.monAdd ≠ .exn → env.ifaceUp ≠ .exn → env.verify = .ok →
      env.verifyMonitor = true →
      (V2.doRecovery env s).state.blindEpochs = 0) ∧
    (∀ (w : ℚ) (m mb : Nat) (now : ℚ) (env : V2.RecoveryEnv) (s : V2.PluginState),
      env.ifaceDown ≠ .exn → env.unload ≠ .exn → env.reload ≠ .exn →
      V2.waitLoopRaises env.waitRes 0 10 = false → env.monDel ≠ .exn →
      env.monAdd ≠ .exn → env.ifaceUp ≠ .exn → env.verify = .ok →
      env.verifyMonitor = true →
      ((V2.onEpoch w m mb now 0 ((V2.doRecovery env s).state)).1).blindEpochs = 1) := by
  refine ⟨fun w m mb now n s => V2.onEpoch_seen_resets w m mb now n s, ?_, ?_⟩
  · intro env s h1 h2 h3 h4 h5 h6 h7 h8 h9
    exact (V2.doRecovery_success env s h1 h2 h3 h4 h5 h6 h7 h8 h9).1
  · intro w m mb now env s h1 h2 h3 h4 h5 h6 h7 h8 h9
    exact V2.onEpoch_blind_after_reset w m mb now _
      (V2.doRecovery_success env s h1 h2 h3 h4 h5 h6 h7 h8 h9).1

/-- C9 witness: the three parts at concrete inputs — a seeing cycle on a deeply
blind, recovering state; a verified recovery from the trigger threshold; and the
first blind cycle after that recovery counting exactly 1. -/
theorem c9_blind_reset_witness :
    ((V2.onEpoch 3600 5 10 0 (0 + 1)
        { V2.initPlugin with blindEpochs := 10, recovering := true }).1).blindEpochs
      = 0 ∧
    (V2.doRecovery V2.envVerified
        { V2.initPlugin with blindEpochs := 10 }).state.blindEpochs = 0 ∧
    ((V2.onEpoch 3600 5 10 0 0
        ((V2.doRecovery V2.envVerified
          { V2.initPlugin with blindEpochs := 10 }).state)).1).blindEpochs = 1 :=
  ⟨c9_blind_reset.1 3600 5 10 0 0 { V2.initPlugin with blindEpochs := 10, recovering := true },
   c9_blind_reset.2.1 V2.envVerified { V2.initPlugin with blindEpochs := 10 }
     (by decide) (by decide) (by decide) rfl (by decide) (by decide) (by decide) rfl rfl,
   c9_blind_reset.2.2 3600 5 10 0 V2.envVerified { V2.initPlugin with blindEpochs := 10 }
     (by decide) (by decide) (by decide) rfl (by decide) (by decide) (by decide) rfl rfl⟩

/-- C10: with a positive error threshold, the pause state of the channel hopper
never persists across `hop_to` calls: after any sequence of calls from a fresh
hopper the pause flag is down, `consecutive_errors` is strictly below the threshold,
and the fast-fail branch condition is false for the next call whatever its `force`
flag; moreover the failure that reaches the threshold performs the whole pause
synchronously inside that call — it returns `False` with the error count reset to 0,
the flag down, and the pause counter bumped. -/
theorem c10_pause_never_persists :
    (∀ maxE : Nat, 1 ≤ maxE →
      ∀ (detected : Option Nat) (calls : List NexmonChannel.HopCall),
      (NexmonChannel.runHops maxE calls (NexmonChannel.initState detected)).inRecovery
        = false ∧
      (NexmonChannel.runHops maxE calls (NexmonChannel.initState detected)).consecutiveErrors
        < maxE ∧
      (∀ f, NexmonChannel.fastFailTaken
        (NexmonChannel.runHops maxE calls (NexmonChannel.initState detected)) f = false)) ∧
    (∀ (maxE : Nat) (c : NexmonChannel.HopCall) (s : NexmonChannel.HopperState),
      s.inRecovery = false → c.res ≠ .ok → c.force = false →
      maxE ≤ s.consecutiveErrors + 1 →
      (NexmonChannel.hopTo maxE c s).1 = false ∧
      (NexmonChannel.hopTo maxE c s).2.consecutiveErrors = 0 ∧
      (NexmonChannel.hopTo maxE c s).2.inRecovery = false ∧
      (NexmonChannel.hopTo maxE c s).2.recoveries = s.recoveries + 1) := by
  constructor
  · intro maxE hm det calls
    have h := NexmonChannel.runHops_pause_inv maxE hm calls (NexmonChannel.initState det)
      rfl (by simpa [NexmonChannel.initState] using hm)
    refine ⟨h.1, h.2, ?_⟩
    intro f
    simp [NexmonChannel.fastFailTaken, h.1]
  · intro maxE c s h1 hres hforce hthr
    rcases c with ⟨res, ch, now, force⟩
    cases res <;> simp_all [NexmonChannel.hopTo, NexmonChannel.handleHopError,
      NexmonChannel.fastFailTaken]

/-- C10 witness: both parts at concrete inputs — a fresh hopper with threshold 1
after one failing call, and the threshold-reaching failure itself. -/
theorem c10_pause_never_persists_witness :
    ((NexmonChannel.runHops 1 [⟨.fail, 6, 0, false⟩]
        (NexmonChannel.initState none)).inRecovery = false ∧
      (NexmonChannel.runHops 1 [⟨.fail, 6, 0, false⟩]
        (NexmonChannel.initState none)).consecutiveErrors < 1 ∧
      (∀ f, NexmonChannel.fastFailTaken
        (NexmonChannel.runHops 1 [⟨.fail, 6, 0, false⟩]
          (NexmonChannel.initState none)) f = false)) ∧
    ((NexmonChannel.hopTo 1 ⟨.timeout, 36, 0, false⟩ (NexmonChannel.initState none)).1
        = false ∧
      (NexmonChannel.hopTo 1 ⟨.timeout, 36, 0, false⟩
        (NexmonChannel.initState none)).2.consecutiveErrors = 0 ∧
      (NexmonChannel.hopTo 1 ⟨.timeout, 36, 0, false⟩
        (NexmonChannel.initState none)).2.inRecovery = false ∧
      (NexmonChannel.hopTo 1 ⟨.timeout, 36, 0, false⟩
        (NexmonChannel.initState none)).2.recoveries
        = (NexmonChannel.initState none).recoveries + 1) :=
  ⟨c10_pause_never_persists.1 1 (by decide) none [⟨.fail, 6, 0, false⟩],
   c10_pause_never_persists.2 1 ⟨.timeout, 36, 0, false⟩ (NexmonChannel.initState none)
     rfl (by decide) rfl (by decide)⟩
